import Mathlib

/-!
Shallow embedding of the churn-calculator projection engine
(`src/src/utils/calculations.ts`, plus the older duplicate copy in
`src/unnamed/part_007`) over exact rational arithmetic.

JavaScript's `Math.round(x)` is `⌊x + 1/2⌋` (round half toward +∞); the
source rounds currency as `Math.round(x * 100) / 100` and one-decimal
values as `Math.round(x * 10) / 10`, modelled by `round2` and `round1`.
-/

/-- JavaScript `Math.round`: round half toward positive infinity. -/
def jsRound (x : ℚ) : ℤ := ⌊x + 1/2⌋

/-- `Math.round(x * 100) / 100`: round to 2 decimal places. -/
def round2 (x : ℚ) : ℚ := (jsRound (x * 100) : ℚ) / 100

/-- `Math.round(x * 10) / 10`: round to 1 decimal place. -/
def round1 (x : ℚ) : ℚ := (jsRound (x * 10) : ℚ) / 10

/-- The `CalculatorInputs` record from `src/src/types/index.ts`
(the four fields the projection engine reads). -/
structure CalculatorInputs where
  averageOrderValue : ℚ
  numberOfCustomers : ℚ
  purchaseFrequency : ℚ
  churnRate : ℚ
deriving DecidableEq, Repr

/-- One entry of the `churnReductionScenarios` list. -/
structure ChurnScenario where
  reductionPercentage : ℚ
  newChurnRate : ℚ
  annualSavings : ℚ
  threeYearSavings : ℚ
deriving DecidableEq, Repr

/-- The `CalculatorResults` record assembled by `calculateAllResults`. -/
structure CalculatorResults where
  annualRevenueLost : ℚ
  monthlyRevenueLost : ℚ
  threeYearImpact : ℚ
  fiveYearImpact : ℚ
  customerLifespan : ℚ
  customersLostPerYear : ℚ
  customersLostPerMonth : ℚ
  churnReductionScenarios : List ChurnScenario
deriving DecidableEq, Repr

inductive SizeCategory where
  | small | medium | large | enterprise
deriving DecidableEq, Repr

inductive AOVCategory where
  | low | medium | high | luxury
deriving DecidableEq, Repr

inductive ChurnSeverity where
  | critical | concerning | moderate | good
deriving DecidableEq, Repr

/-- The `StoreProfile` classification record. -/
structure StoreProfile where
  sizeCategory : SizeCategory
  aovCategory : AOVCategory
  churnSeverity : ChurnSeverity
deriving DecidableEq, Repr

namespace Calculations
/-! Embedding of `src/src/utils/calculations.ts` (the primary copy). -/

/-- `calculateAnnualRevenueLost` (calculations.ts lines 29-47). -/
def calculateAnnualRevenueLost (inputs : CalculatorInputs) : ℚ :=
  if inputs.numberOfCustomers ≤ 0 ∨ inputs.churnRate ≤ 0 ∨
      inputs.averageOrderValue ≤ 0 ∨ inputs.purchaseFrequency ≤ 0 then 0
  else if 100 < inputs.churnRate then 0
  else
    round2 (inputs.numberOfCustomers * (inputs.churnRate / 100) *
      (inputs.averageOrderValue * inputs.purchaseFrequency))

/-- `calculateMonthlyRevenueLost` (calculations.ts lines 69-76). -/
def calculateMonthlyRevenueLost (annualLoss : ℚ) : ℚ :=
  if annualLoss ≤ 0 then 0 else round2 (annualLoss / 12)

/-- The `for (let year = 0; year < years; year++)` loop body of
`calculateLifetimeValueLost`: accumulate this year's revenue loss, shrink
the base, and break out once the remaining base drops below 1. -/
def lvlLoop (rate annualValue : ℚ) : ℚ → ℕ → ℚ
  | _, 0 => 0
  | base, n + 1 =>
    let customersLostThisYear := base * rate
    let revenueLostThisYear := customersLostThisYear * annualValue
    let nextBase := base - customersLostThisYear
    if nextBase < 1 then revenueLostThisYear
    else revenueLostThisYear + lvlLoop rate annualValue nextBase n

/-- `calculateLifetimeValueLost` (calculations.ts lines 107-139):
year-over-year compounding with a shrinking customer base. -/
def calculateLifetimeValueLost (inputs : CalculatorInputs) (years : ℕ) : ℚ :=
  if years = 0 ∨ inputs.churnRate ≤ 0 ∨ 100 < inputs.churnRate then 0
  else if inputs.numberOfCustomers ≤ 0 ∨ inputs.averageOrderValue ≤ 0 ∨
      inputs.purchaseFrequency ≤ 0 then 0
  else
    round2 (lvlLoop (inputs.churnRate / 100)
      (inputs.averageOrderValue * inputs.purchaseFrequency)
      inputs.numberOfCustomers years)

/-- `calculateCustomerLifespan` (calculations.ts lines 166-173). -/
def calculateCustomerLifespan (churnRate : ℚ) : ℚ :=
  if churnRate ≤ 0 ∨ 100 < churnRate then 0
  else round1 (1 / (churnRate / 100))

/-- One iteration of the `for (const reduction of reductionPercentages)`
loop in `calculateChurnReductionScenarios`. -/
def scenarioFor (inputs : CalculatorInputs) (annualLoss reduction : ℚ) :
    ChurnScenario :=
  let newChurnRate := inputs.churnRate * (1 - reduction / 100)
  let newAnnualLoss :=
    calculateAnnualRevenueLost { inputs with churnRate := newChurnRate }
  let annualSavings := annualLoss - newAnnualLoss
  let threeYearSavings := annualSavings * 3
  { reductionPercentage := reduction
    newChurnRate := round2 newChurnRate
    annualSavings := round2 annualSavings
    threeYearSavings := round2 threeYearSavings }

/-- `calculateChurnReductionScenarios` (calculations.ts lines 209-241). -/
def calculateChurnReductionScenarios (inputs : CalculatorInputs)
    (annualLoss : ℚ) : List ChurnScenario :=
  if annualLoss ≤ 0 ∨ inputs.churnRate ≤ 0 ∨ 100 < inputs.churnRate then []
  else [10, 25, 50].map (scenarioFor inputs annualLoss)

/-- `calculateAllResults` (calculations.ts lines 272-303). -/
def calculateAllResults (inputs : CalculatorInputs) : CalculatorResults :=
  let annualRevenueLost := calculateAnnualRevenueLost inputs
  let monthlyRevenueLost := calculateMonthlyRevenueLost annualRevenueLost
  let threeYearImpact := calculateLifetimeValueLost inputs 3
  let fiveYearImpact := calculateLifetimeValueLost inputs 5
  let customerLifespan := calculateCustomerLifespan inputs.churnRate
  let customersLostPerYear :=
    inputs.numberOfCustomers * (inputs.churnRate / 100)
  let customersLostPerMonth := customersLostPerYear / 12
  let churnReductionScenarios :=
    calculateChurnReductionScenarios inputs annualRevenueLost
  { annualRevenueLost := round2 annualRevenueLost
    monthlyRevenueLost := round2 monthlyRevenueLost
    threeYearImpact := round2 threeYearImpact
    fiveYearImpact := round2 fiveYearImpact
    customerLifespan := round1 customerLifespan
    customersLostPerYear := round2 customersLostPerYear
    customersLostPerMonth := round2 customersLostPerMonth
    churnReductionScenarios := churnReductionScenarios }

/-- `categorizeStore` (calculations.ts lines 352-396). The `results`
argument is accepted but never read, exactly as in the source. -/
def categorizeStore (inputs : CalculatorInputs) (_results : CalculatorResults) :
    StoreProfile :=
  let sizeCategory : SizeCategory :=
    if inputs.numberOfCustomers < 1000 then .small
    else if inputs.numberOfCustomers < 10000 then .medium
    else if inputs.numberOfCustomers < 50000 then .large
    else .enterprise
  let aovCategory : AOVCategory :=
    if inputs.averageOrderValue < 50 then .low
    else if inputs.averageOrderValue < 150 then .medium
    else if inputs.averageOrderValue < 500 then .high
    else .luxury
  let churnSeverity : ChurnSeverity :=
    if 75 < inputs.churnRate then .critical
    else if 60 ≤ inputs.churnRate then .concerning
    else if 45 ≤ inputs.churnRate then .moderate
    else .good
  { sizeCategory := sizeCategory
    aovCategory := aovCategory
    churnSeverity := churnSeverity }

end Calculations

namespace Part007
/-! Embedding of `src/unnamed/part_007`, the older duplicate copy of the
engine. Its guards differ from the primary copy: `calculateAnnualRevenueLost`
only checks `numberOfCustomers ≤ 0` and `churnRate ≤ 0`;
`calculateLifetimeValueLost` is the naive `annualLoss * years`;
`calculateCustomerLifespan` returns a 100-year ceiling on `churnRate ≤ 0`
and caps `churnRate` at 100; `calculateChurnReductionScenarios` has no
guard; `calculateAllResults` throws (`Except.error`) when
`numberOfCustomers ≤ 0`; `categorizeStore` uses strict `>` at the 60 and 45
churn boundaries. -/

/-- `calculateAnnualRevenueLost` (part_007 lines 29-48). -/
def calculateAnnualRevenueLost (inputs : CalculatorInputs) : ℚ :=
  if inputs.numberOfCustomers ≤ 0 ∨ inputs.churnRate ≤ 0 then 0
  else
    round2 (inputs.numberOfCustomers * (inputs.churnRate / 100) *
      (inputs.averageOrderValue * inputs.purchaseFrequency))

/-- `calculateMonthlyRevenueLost` (part_007 lines 64-73). -/
def calculateMonthlyRevenueLost (annualLoss : ℚ) : ℚ :=
  if annualLoss ≤ 0 then 0 else round2 (annualLoss / 12)

/-- `calculateLifetimeValueLost` (part_007 lines 97-114):
naive simple multiplication, `annualLoss * years`. -/
def calculateLifetimeValueLost (inputs : CalculatorInputs) (years : ℕ) : ℚ :=
  if years = 0 then 0
  else round2 (calculateAnnualRevenueLost inputs * years)

/-- `calculateCustomerLifespan` (part_007 lines 134-152). -/
def calculateCustomerLifespan (churnRate : ℚ) : ℚ :=
  if churnRate ≤ 0 then 100
  else
    let cappedRate := if 100 < churnRate then 100 else churnRate
    round1 (1 / (cappedRate / 100))

/-- One iteration of the scenarios loop (part_007 lines 187-210). -/
def scenarioFor (inputs : CalculatorInputs) (annualLoss reduction : ℚ) :
    ChurnScenario :=
  let newChurnRate := inputs.churnRate * (1 - reduction / 100)
  let newAnnualLoss :=
    calculateAnnualRevenueLost { inputs with churnRate := newChurnRate }
  let annualSavings := annualLoss - newAnnualLoss
  let threeYearSavings := annualSavings * 3
  { reductionPercentage := reduction
    newChurnRate := round2 newChurnRate
    annualSavings := round2 annualSavings
    threeYearSavings := round2 threeYearSavings }

/-- `calculateChurnReductionScenarios` (part_007 lines 180-213): no guard. -/
def calculateChurnReductionScenarios (inputs : CalculatorInputs)
    (annualLoss : ℚ) : List ChurnScenario :=
  [10, 25, 50].map (scenarioFor inputs annualLoss)

/-- `calculateAllResults` (part_007 lines 245-281). The
`throw new Error(...)` on `numberOfCustomers <= 0` is modelled as
`Except.error` with the thrown message. -/
def calculateAllResults (inputs : CalculatorInputs) :
    Except String CalculatorResults :=
  if inputs.numberOfCustomers ≤ 0 then
    .error "Invalid calculator inputs: numberOfCustomers must be greater than 0"
  else
    let annualRevenueLost := calculateAnnualRevenueLost inputs
    let monthlyRevenueLost := calculateMonthlyRevenueLost annualRevenueLost
    let threeYearImpact := calculateLifetimeValueLost inputs 3
    let fiveYearImpact := calculateLifetimeValueLost inputs 5
    let customerLifespan := calculateCustomerLifespan inputs.churnRate
    let customersLostPerYear :=
      inputs.numberOfCustomers * (inputs.churnRate / 100)
    let customersLostPerMonth := customersLostPerYear / 12
    let churnReductionScenarios :=
      calculateChurnReductionScenarios inputs annualRevenueLost
    .ok
      { annualRevenueLost := round2 annualRevenueLost
        monthlyRevenueLost := round2 monthlyRevenueLost
        threeYearImpact := round2 threeYearImpact
        fiveYearImpact := round2 fiveYearImpact
        customerLifespan := round1 customerLifespan
        customersLostPerYear := round2 customersLostPerYear
        customersLostPerMonth := round2 customersLostPerMonth
        churnReductionScenarios := churnReductionScenarios }

/-- `categorizeStore` (part_007 lines 328-373). -/
def categorizeStore (inputs : CalculatorInputs) (_results : CalculatorResults) :
    StoreProfile :=
  let sizeCategory : SizeCategory :=
    if inputs.numberOfCustomers < 1000 then .small
    else if inputs.numberOfCustomers < 10000 then .medium
    else if inputs.numberOfCustomers < 50000 then .large
    else .enterprise
  let aovCategory : AOVCategory :=
    if inputs.averageOrderValue < 50 then .low
    else if inputs.averageOrderValue < 150 then .medium
    else if inputs.averageOrderValue < 500 then .high
    else .luxury
  let churnSeverity : ChurnSeverity :=
    if 75 < inputs.churnRate then .critical
    else if 60 < inputs.churnRate then .concerning
    else if 45 < inputs.churnRate then .moderate
    else .good
  { sizeCategory := sizeCategory
    aovCategory := aovCategory
    churnSeverity := churnSeverity }

end Part007

/-! Claim-side definitions, written from the spec's words, to be compared
with the source embeddings above. -/

/-- The compounding iteration exactly as the spec sentence for claim C1
words it: each year `customersLostThisYear = currentCustomerBase *
(churnRate/100)`, then `revenueLostThisYear = customersLostThisYear *
averageOrderValue * purchaseFrequency` is accumulated, then
`currentCustomerBase` is reduced by `customersLostThisYear`, stopping
early once the remaining base drops below 1. -/
def claimIter (churnRate averageOrderValue purchaseFrequency : ℚ) :
    ℚ → ℚ → ℕ → ℚ
  | _, acc, 0 => acc
  | currentCustomerBase, acc, n + 1 =>
    let customersLostThisYear := currentCustomerBase * (churnRate / 100)
    let acc2 :=
      acc + customersLostThisYear * averageOrderValue * purchaseFrequency
    let nextBase := currentCustomerBase - customersLostThisYear
    if nextBase < 1 then acc2
    else claimIter churnRate averageOrderValue purchaseFrequency nextBase acc2 n

/-- `lifetimeValueLost` as worded by claim C1: the accumulated compounding
total rounded to 2 decimals, and 0 when churnRate is outside (0,100], any
other input is ≤ 0, or years ≤ 0. -/
def lifetimeValueLostClaim (inputs : CalculatorInputs) (years : ℕ) : ℚ :=
  if inputs.churnRate ≤ 0 ∨ 100 < inputs.churnRate ∨
      inputs.numberOfCustomers ≤ 0 ∨ inputs.averageOrderValue ≤ 0 ∨
      inputs.purchaseFrequency ≤ 0 ∨ years = 0 then 0
  else
    round2 (claimIter inputs.churnRate inputs.averageOrderValue
      inputs.purchaseFrequency inputs.numberOfCustomers 0 years)

/-- `annualRevenueLost` as worded by claim C2:
`(numberOfCustomers * (churnRate/100)) * averageOrderValue *
purchaseFrequency` rounded to 2 decimal places when all four core inputs
are positive and churnRate ≤ 100, else 0. -/
def annualRevenueLostClaim (inputs : CalculatorInputs) : ℚ :=
  if 0 < inputs.numberOfCustomers ∧ 0 < inputs.churnRate ∧
      inputs.churnRate ≤ 100 ∧ 0 < inputs.averageOrderValue ∧
      0 < inputs.purchaseFrequency then
    round2 (inputs.numberOfCustomers * (inputs.churnRate / 100) *
      inputs.averageOrderValue * inputs.purchaseFrequency)
  else 0

/-- `categorizeStore` as worded by claim C6: threshold classification with
the stated boundary convention (strict `<` for size and AOV bands,
`> 75` / `≥ 60` / `≥ 45` for churn severity). -/
def categorizeStoreClaim (inputs : CalculatorInputs) : StoreProfile :=
  { sizeCategory :=
      if inputs.numberOfCustomers < 1000 then .small
      else if inputs.numberOfCustomers < 10000 then .medium
      else if inputs.numberOfCustomers < 50000 then .large
      else .enterprise
    aovCategory :=
      if inputs.averageOrderValue < 50 then .low
      else if inputs.averageOrderValue < 150 then .medium
      else if inputs.averageOrderValue < 500 then .high
      else .luxury
    churnSeverity :=
      if 75 < inputs.churnRate then .critical
      else if 60 ≤ inputs.churnRate then .concerning
      else if 45 ≤ inputs.churnRate then .moderate
      else .good }

/-! General facts about the JS rounding helpers. -/

theorem jsRound_le (x : ℚ) : (jsRound x : ℚ) ≤ x + 1/2 := by
  simpa [jsRound] using Int.floor_le (x + 1/2)

theorem lt_jsRound (x : ℚ) : x - 1/2 < (jsRound x : ℚ) := by
  have h := Int.sub_one_lt_floor (x + 1/2)
  simp only [jsRound]
  linarith

theorem jsRound_mono {x y : ℚ} (h : x ≤ y) : jsRound x ≤ jsRound y :=
  Int.floor_mono (by linarith)

theorem round2_mono {x y : ℚ} (h : x ≤ y) : round2 x ≤ round2 y := by
  have hle : (jsRound (x * 100) : ℚ) ≤ (jsRound (y * 100) : ℚ) := by
    exact_mod_cast jsRound_mono (by linarith)
  simp only [round2]
  linarith

theorem round2_zero : round2 0 = 0 := by
  norm_num [round2, jsRound]

theorem round2_nonneg {x : ℚ} (h : 0 ≤ x) : 0 ≤ round2 x :=
  round2_zero ▸ round2_mono h

theorem round2_le (x : ℚ) : round2 x ≤ x + 1/200 := by
  have h := jsRound_le (x * 100)
  simp only [round2]
  linarith

theorem abs_round2_sub (x : ℚ) : |round2 x - x| ≤ 1/200 := by
  have h1 := jsRound_le (x * 100)
  have h2 := lt_jsRound (x * 100)
  rw [round2, abs_le]
  constructor <;> linarith

theorem round1_mono {x y : ℚ} (h : x ≤ y) : round1 x ≤ round1 y := by
  have hle : (jsRound (x * 10) : ℚ) ≤ (jsRound (y * 10) : ℚ) := by
    exact_mod_cast jsRound_mono (by linarith)
  simp only [round1]
  linarith

/-- The claim-side accumulator loop computes the accumulator plus the
source loop's sum. -/
theorem claimIter_eq_lvlLoop (r a p : ℚ) :
    ∀ (n : ℕ) (base acc : ℚ),
      claimIter r a p base acc n =
        acc + Calculations.lvlLoop (r / 100) (a * p) base n
  | 0, base, acc => by
    simp [claimIter, Calculations.lvlLoop]
  | n + 1, base, acc => by
    simp only [claimIter, Calculations.lvlLoop]
    split
    · ring
    · rw [claimIter_eq_lvlLoop r a p n]
      ring

/-- Claim C1: `calculateLifetimeValueLost` equals the compounding
iteration described by the spec — year-by-year accumulation of
`customersLostThisYear * averageOrderValue * purchaseFrequency` over a
shrinking customer base with early stop below 1 and a final 2-decimal
rounding, and 0 on any degenerate input (churnRate outside (0,100],
another core input ≤ 0, or years ≤ 0). -/
theorem C1_lifetimeValueLost_eq_claim :
    ∀ (inputs : CalculatorInputs) (years : ℕ),
      Calculations.calculateLifetimeValueLost inputs years =
        lifetimeValueLostClaim inputs years := by
  intro i years
  unfold Calculations.calculateLifetimeValueLost lifetimeValueLostClaim
  split_ifs <;> try tauto
  rw [claimIter_eq_lvlLoop, zero_add]

/-- Claim C2: `calculateAnnualRevenueLost` returns
`(numberOfCustomers * (churnRate/100)) * averageOrderValue *
purchaseFrequency` rounded to 2 decimals when all four core inputs are
positive and churnRate ≤ 100, returns 0 when any of the four is ≤ 0 or
churnRate > 100, and in particular returns 150000 for AOV=100,
customers=1000, frequency=2, churnRate=75. -/
theorem C2_annualRevenueLost_eq_claim :
    (∀ inputs : CalculatorInputs,
      Calculations.calculateAnnualRevenueLost inputs =
        annualRevenueLostClaim inputs) ∧
    Calculations.calculateAnnualRevenueLost ⟨100, 1000, 2, 75⟩ = 150000 := by
  constructor
  · intro i
    by_cases h : 0 < i.numberOfCustomers ∧ 0 < i.churnRate ∧
        i.churnRate ≤ 100 ∧ 0 < i.averageOrderValue ∧ 0 < i.purchaseFrequency
    · obtain ⟨h1, h2, h3, h4, h5⟩ := h
      rw [annualRevenueLostClaim, if_pos ⟨h1, h2, h3, h4, h5⟩,
        Calculations.calculateAnnualRevenueLost,
        if_neg (by push_neg; exact ⟨h1, h2, h4, h5⟩), if_neg (by linarith)]
      congr 1
      ring
    · rw [annualRevenueLostClaim, if_neg h,
        Calculations.calculateAnnualRevenueLost]
      split_ifs with h1 h2
      · rfl
      · rfl
      · push_neg at h1 h2
        exact absurd ⟨h1.1, h1.2.1, h2, h1.2.2.1, h1.2.2.2⟩ h
  · norm_num [Calculations.calculateAnnualRevenueLost, round2, jsRound]

/-- Claim C6: `categorizeStore` (primary copy) classifies by pure
thresholds with the stated boundary convention — size `<1000`/`<10000`/
`<50000`, AOV `<50`/`<150`/`<500`, churn severity `>75`/`≥60`/`≥45`. -/
theorem C6_categorizeStore_eq_claim :
    ∀ (inputs : CalculatorInputs) (results : CalculatorResults),
      Calculations.categorizeStore inputs results =
        categorizeStoreClaim inputs := by
  intro i r
  rfl

/-- Claim C3: the two multi-year projection algorithms in the source —
naive multiplication (part_007) and year-over-year compounding
(calculations.ts) — disagree on a valid input: customers=1000, AOV=100,
frequency=2, churnRate=75, years=2 gives 187500 (compounding) versus
300000 (naive). -/
theorem C3_projection_algorithms_differ :
    ∃ (inputs : CalculatorInputs) (years : ℕ),
      0 < inputs.churnRate ∧ inputs.churnRate ≤ 100 ∧
      0 < inputs.numberOfCustomers ∧ 0 < inputs.averageOrderValue ∧
      0 < inputs.purchaseFrequency ∧ 2 ≤ years ∧
      Calculations.calculateLifetimeValueLost inputs years ≠
        Part007.calculateLifetimeValueLost inputs years := by
  refine ⟨⟨100, 1000, 2, 75⟩, 2, by norm_num, by norm_num, by norm_num,
    by norm_num, by norm_num, le_refl 2, ?_⟩
  have h1 : Calculations.calculateLifetimeValueLost ⟨100, 1000, 2, 75⟩ 2 =
      187500 := by
    norm_num [Calculations.calculateLifetimeValueLost, Calculations.lvlLoop,
      round2, jsRound]
  have h2 : Part007.calculateLifetimeValueLost ⟨100, 1000, 2, 75⟩ 2 =
      300000 := by
    norm_num [Part007.calculateLifetimeValueLost,
      Part007.calculateAnnualRevenueLost, round2, jsRound]
  rw [h1, h2]
  norm_num

/-- Claim C5 counterexample: at customers=5000, AOV=200, churnRate=75 the
code returns churnSeverity `concerning` (75 is not `> 75`), not the
`critical` the claim states. -/
theorem C5_counterexample :
    Calculations.categorizeStore ⟨200, 5000, 2, 75⟩
        (Calculations.calculateAllResults ⟨200, 5000, 2, 75⟩) =
      ⟨.medium, .high, .concerning⟩ ∧
    (StoreProfile.mk .medium .high .concerning ≠
      StoreProfile.mk .medium .high .critical) := by
  constructor
  · norm_num [Calculations.categorizeStore]
  · simp

/-- Claim C5 as amended: at customers=5000, AOV=200, churnRate=75 both
source copies of `categorizeStore` return sizeCategory `medium`,
aovCategory `high` and churnSeverity `concerning`. -/
theorem C5_amended_categorizeStore_example :
    Calculations.categorizeStore ⟨200, 5000, 2, 75⟩
        (Calculations.calculateAllResults ⟨200, 5000, 2, 75⟩) =
      ⟨.medium, .high, .concerning⟩ ∧
    Part007.categorizeStore ⟨200, 5000, 2, 75⟩
        (Calculations.calculateAllResults ⟨200, 5000, 2, 75⟩) =
      ⟨.medium, .high, .concerning⟩ := by
  constructor <;> norm_num [Calculations.categorizeStore,
    Part007.categorizeStore]

/-- Claim C10: `calculateAllResults` computes `customersLostPerYear` and
`customersLostPerMonth` with no degenerate-input guard — they are the raw
`numberOfCustomers * (churnRate/100)` (and its twelfth) rounded to 2
decimals for every input, so at churnRate=150 they are nonzero (1500)
while annualRevenueLost, threeYearImpact and fiveYearImpact are 0, and a
negative numberOfCustomers makes customersLostPerYear negative. -/
theorem C10_customersLost_unguarded :
    (∀ inputs : CalculatorInputs,
      (Calculations.calculateAllResults inputs).customersLostPerYear =
        round2 (inputs.numberOfCustomers * (inputs.churnRate / 100)) ∧
      (Calculations.calculateAllResults inputs).customersLostPerMonth =
        round2 (inputs.numberOfCustomers * (inputs.churnRate / 100) / 12)) ∧
    (Calculations.calculateAllResults ⟨100, 1000, 2, 150⟩).customersLostPerYear
      = 1500 ∧
    (Calculations.calculateAllResults ⟨100, 1000, 2, 150⟩).annualRevenueLost
      = 0 ∧
    (Calculations.calculateAllResults ⟨100, 1000, 2, 150⟩).threeYearImpact
      = 0 ∧
    (Calculations.calculateAllResults ⟨100, 1000, 2, 150⟩).fiveYearImpact
      = 0 ∧
    (Calculations.calculateAllResults ⟨100, -10, 2, 50⟩).customersLostPerYear
      < 0 := by
  refine ⟨fun i => ⟨rfl, rfl⟩, ?_, ?_, ?_, ?_, ?_⟩ <;>
    norm_num [Calculations.calculateAllResults,
      Calculations.calculateAnnualRevenueLost,
      Calculations.calculateMonthlyRevenueLost,
      Calculations.calculateLifetimeValueLost,
      Calculations.calculateCustomerLifespan,
      Calculations.calculateChurnReductionScenarios,
      round2, round1, jsRound]

/-- Claim C4 counterexample: the part_007 copy's `calculateAllResults`
throws (models as `Except.error`) at numberOfCustomers = 0, and at
churnRate = 100 the primary `calculateAnnualRevenueLost` returns the
normal computed value 200000, not a zero/empty result. -/
theorem C4_counterexample :
    Part007.calculateAllResults ⟨100, 0, 2, 50⟩ =
      Except.error
        "Invalid calculator inputs: numberOfCustomers must be greater than 0" ∧
    Calculations.calculateAnnualRevenueLost ⟨100, 1000, 2, 100⟩ = 200000 := by
  constructor
  · norm_num [Part007.calculateAllResults]
  · norm_num [Calculations.calculateAnnualRevenueLost, round2, jsRound]

/-- Claim C4 as amended: in the primary copy, churnRate = 0 or
numberOfCustomers = 0 yield the documented zero/empty results (and
churnRate = 0 zeroes the whole `calculateAllResults` record), while
churnRate = 100 yields the normal nonzero computed value; the part_007
copy's `calculateAllResults`, however, raises (models as `Except.error`)
whenever numberOfCustomers ≤ 0. -/
theorem C4_amended_degenerate_inputs :
    (∀ (inputs : CalculatorInputs) (years : ℕ) (annualLoss : ℚ),
      (inputs.churnRate = 0 ∨ inputs.numberOfCustomers = 0 →
        Calculations.calculateAnnualRevenueLost inputs = 0 ∧
        Calculations.calculateLifetimeValueLost inputs years = 0) ∧
      (inputs.churnRate = 0 →
        Calculations.calculateCustomerLifespan inputs.churnRate = 0 ∧
        Calculations.calculateChurnReductionScenarios inputs annualLoss = [] ∧
        Calculations.calculateAllResults inputs = ⟨0, 0, 0, 0, 0, 0, 0, []⟩) ∧
      (inputs.numberOfCustomers ≤ 0 →
        Part007.calculateAllResults inputs =
          Except.error
            "Invalid calculator inputs: numberOfCustomers must be greater than 0")) ∧
    Calculations.calculateMonthlyRevenueLost 0 = 0 ∧
    Calculations.calculateAnnualRevenueLost ⟨100, 1000, 2, 100⟩ = 200000 ∧
    Calculations.calculateCustomerLifespan 100 = 1 := by
  refine ⟨fun i years L => ⟨?_, ?_, ?_⟩, ?_, ?_, ?_⟩
  · rintro (h | h) <;>
      simp [Calculations.calculateAnnualRevenueLost,
        Calculations.calculateLifetimeValueLost, h]
  · intro h
    refine ⟨?_, ?_, ?_⟩
    · simp [Calculations.calculateCustomerLifespan, h]
    · simp [Calculations.calculateChurnReductionScenarios, h]
    · simp [Calculations.calculateAllResults,
        Calculations.calculateAnnualRevenueLost,
        Calculations.calculateMonthlyRevenueLost,
        Calculations.calculateLifetimeValueLost,
        Calculations.calculateCustomerLifespan,
        Calculations.calculateChurnReductionScenarios, h, round2_zero,
        round1, round2, jsRound]
      norm_num
  · intro h
    simp [Part007.calculateAllResults, h]
  · simp [Calculations.calculateMonthlyRevenueLost]
  · norm_num [Calculations.calculateAnnualRevenueLost, round2, jsRound]
  · norm_num [Calculations.calculateCustomerLifespan, round1, jsRound]

/-- Witness for the amended claim C4 at concrete degenerate inputs. -/
theorem C4_amended_witness :
    Calculations.calculateAllResults ⟨100, 1000, 2, 0⟩ =
      ⟨0, 0, 0, 0, 0, 0, 0, []⟩ ∧
    Part007.calculateAllResults ⟨100, 0, 2, 50⟩ =
      Except.error
        "Invalid calculator inputs: numberOfCustomers must be greater than 0" :=
  ⟨((C4_amended_degenerate_inputs.1 ⟨100, 1000, 2, 0⟩ 3 5).2.1 rfl).2.2,
    (C4_amended_degenerate_inputs.1 ⟨100, 0, 2, 50⟩ 3 5).2.2 (by norm_num)⟩

/-- Claim C7 counterexample: `calculateCustomerLifespan` is not strictly
decreasing on (0,100] — the 1-decimal rounding sends both churnRate 97 and
churnRate 98 to 1.0 years. -/
theorem C7_counterexample :
    (0 : ℚ) < 97 ∧ (97 : ℚ) < 98 ∧ (98 : ℚ) ≤ 100 ∧
    Calculations.calculateCustomerLifespan 97 =
      Calculations.calculateCustomerLifespan 98 ∧
    ¬ Calculations.calculateCustomerLifespan 98 <
        Calculations.calculateCustomerLifespan 97 := by
  norm_num [Calculations.calculateCustomerLifespan, round1, jsRound]

/-- Claim C7 as amended: on (0,100] the implemented (1-decimal-rounded)
`calculateCustomerLifespan` is weakly decreasing, and the unrounded value
`1 / (churnRate/100)` is strictly decreasing. -/
theorem C7_amended_lifespan_antitone :
    ∀ a b : ℚ, 0 < a → a < b → b ≤ 100 →
      Calculations.calculateCustomerLifespan b ≤
        Calculations.calculateCustomerLifespan a ∧
      1 / (b / 100) < 1 / (a / 100) := by
  intro a b ha hab hb
  have hb0 : 0 < b := lt_trans ha hab
  have ha100 : a ≤ 100 := le_of_lt (lt_of_lt_of_le hab hb)
  have hkey : 1 / (b / 100) < 1 / (a / 100) := by
    rw [one_div_div, one_div_div]
    exact div_lt_div_of_pos_left (by norm_num) ha hab
  refine ⟨?_, hkey⟩
  rw [Calculations.calculateCustomerLifespan,
    Calculations.calculateCustomerLifespan,
    if_neg (by push_neg; exact ⟨hb0, hb⟩),
    if_neg (by push_neg; exact ⟨ha, ha100⟩)]
  exact round1_mono (le_of_lt hkey)

/-- Witness for the amended claim C7 at churn rates 50 and 75. -/
theorem C7_amended_witness :
    Calculations.calculateCustomerLifespan 75 ≤
      Calculations.calculateCustomerLifespan 50 ∧
    1 / ((75 : ℚ) / 100) < 1 / ((50 : ℚ) / 100) :=
  C7_amended_lifespan_antitone 50 75 (by norm_num) (by norm_num) (by norm_num)

/-- The primary `calculateAnnualRevenueLost` never returns a negative
value: degenerate inputs give 0 and valid inputs round a positive
product. -/
theorem calculateAnnualRevenueLost_nonneg (inputs : CalculatorInputs) :
    0 ≤ Calculations.calculateAnnualRevenueLost inputs := by
  rw [Calculations.calculateAnnualRevenueLost]
  split_ifs with h1 h2
  · exact le_refl 0
  · exact le_refl 0
  · push_neg at h1
    obtain ⟨hn, hc, ha, hp⟩ := h1
    exact round2_nonneg (by positivity)

/-- `calculateAnnualRevenueLost` is monotone in the churn rate: lowering
churnRate within (0, churnRate] cannot increase the annual loss. -/
theorem calculateAnnualRevenueLost_churn_mono (inputs : CalculatorInputs)
    (c : ℚ) (h0 : 0 < c) (h1 : c ≤ inputs.churnRate)
    (h2 : inputs.churnRate ≤ 100) :
    Calculations.calculateAnnualRevenueLost { inputs with churnRate := c } ≤
      Calculations.calculateAnnualRevenueLost inputs := by
  obtain ⟨a, n, p, cr⟩ := inputs
  dsimp only at h1 h2 ⊢
  by_cases hdeg : n ≤ 0 ∨ a ≤ 0 ∨ p ≤ 0
  · rw [Calculations.calculateAnnualRevenueLost,
      Calculations.calculateAnnualRevenueLost]
    dsimp only
    rw [if_pos (by tauto), if_pos (by tauto)]
  · push_neg at hdeg
    obtain ⟨hn, ha, hp⟩ := hdeg
    rw [Calculations.calculateAnnualRevenueLost,
      Calculations.calculateAnnualRevenueLost]
    dsimp only
    have g1 : ¬(n ≤ 0 ∨ c ≤ 0 ∨ a ≤ 0 ∨ p ≤ 0) := by
      push_neg
      exact ⟨hn, h0, ha, hp⟩
    have g2 : ¬(n ≤ 0 ∨ cr ≤ 0 ∨ a ≤ 0 ∨ p ≤ 0) := by
      push_neg
      exact ⟨hn, lt_of_lt_of_le h0 h1, ha, hp⟩
    have g3 : ¬(100 < c) := not_lt.2 (le_trans h1 h2)
    have g4 : ¬(100 < cr) := not_lt.2 h2
    rw [if_neg g1, if_neg g2, if_neg g3, if_neg g4]
    exact round2_mono (by gcongr)

/-- For churnRate > 1/20 and a reduction percentage in [10, 50], one
scenario entry has a strictly smaller stored (rounded) churn rate and a
nonnegative saving, provided the supplied annualLoss is at least the
actual annual loss of the inputs. -/
theorem scenarioFor_bounds (inputs : CalculatorInputs) (L r : ℚ)
    (hc : 1/20 < inputs.churnRate) (hc100 : inputs.churnRate ≤ 100)
    (hr10 : 10 ≤ r) (hr50 : r ≤ 50)
    (hL : Calculations.calculateAnnualRevenueLost inputs ≤ L) :
    (Calculations.scenarioFor inputs L r).newChurnRate < inputs.churnRate ∧
    0 ≤ (Calculations.scenarioFor inputs L r).annualSavings := by
  have hc0 : 0 < inputs.churnRate := lt_trans (by norm_num) hc
  constructor
  · show round2 (inputs.churnRate * (1 - r / 100)) < inputs.churnRate
    have hle := round2_le (inputs.churnRate * (1 - r / 100))
    have hmul : inputs.churnRate * 10 ≤ inputs.churnRate * r :=
      mul_le_mul_of_nonneg_left hr10 (le_of_lt hc0)
    nlinarith [hle, hmul, hc]
  · show 0 ≤ round2 (L - Calculations.calculateAnnualRevenueLost
      { inputs with churnRate := inputs.churnRate * (1 - r / 100) })
    have hmono := calculateAnnualRevenueLost_churn_mono inputs
      (inputs.churnRate * (1 - r / 100))
      (mul_pos hc0 (by linarith))
      (mul_le_of_le_one_right (le_of_lt hc0) (by linarith)) hc100
    exact round2_nonneg (by linarith)

/-- Claim C8 counterexample: with churnRate = 0.01 (in (0,100]) and
annualLoss = 5 > 0 the first scenario's stored `newChurnRate` rounds back
up to 0.01, so it is not `< churnRate`; and with churnRate = 75 and
annualLoss = 1 > 0 the first scenario's `annualSavings` is negative. -/
theorem C8_counterexample :
    ((0 : ℚ) < 1/100 ∧ (1/100 : ℚ) ≤ 100 ∧ (0 : ℚ) < 5 ∧
      ∃ s ∈ Calculations.calculateChurnReductionScenarios
        ⟨100, 1000, 2, 1/100⟩ 5, ¬ s.newChurnRate < 1/100) ∧
    ((0 : ℚ) < 75 ∧ (75 : ℚ) ≤ 100 ∧ (0 : ℚ) < 1 ∧
      ∃ s ∈ Calculations.calculateChurnReductionScenarios
        ⟨100, 1000, 2, 75⟩ 1, s.annualSavings < 0) := by
  have h1 : Calculations.calculateChurnReductionScenarios
      ⟨100, 1000, 2, 1/100⟩ 5 =
      [⟨10, 1/100, -13, -39⟩, ⟨25, 1/100, -10, -30⟩, ⟨50, 1/100, -5, -15⟩] := by
    norm_num [Calculations.calculateChurnReductionScenarios,
      Calculations.scenarioFor, Calculations.calculateAnnualRevenueLost,
      round2, jsRound]
  have h2 : Calculations.calculateChurnReductionScenarios
      ⟨100, 1000, 2, 75⟩ 1 =
      [⟨10, 135/2, -134999, -404997⟩, ⟨25, 225/4, -112499, -337497⟩,
        ⟨50, 75/2, -74999, -224997⟩] := by
    norm_num [Calculations.calculateChurnReductionScenarios,
      Calculations.scenarioFor, Calculations.calculateAnnualRevenueLost,
      round2, jsRound]
  refine ⟨⟨by norm_num, by norm_num, by norm_num, ?_⟩,
    by norm_num, by norm_num, by norm_num, ?_⟩
  · rw [h1]
    exact ⟨⟨10, 1/100, -13, -39⟩, by simp, by norm_num⟩
  · rw [h2]
    exact ⟨⟨10, 135/2, -134999, -404997⟩, by simp, by norm_num⟩

/-- Claim C8 as amended: whenever churnRate > 0.05 (and ≤ 100) and the
supplied annualLoss is at least the actual annual loss of the inputs,
every scenario entry has stored `newChurnRate < churnRate` and
`annualSavings ≥ 0`; for churnRate ≤ 0.05 the 2-decimal rounding of the
stored rate can cancel the reduction, and for an annualLoss smaller than
the actual loss the savings can be negative. -/
theorem C8_amended_scenarios :
    ∀ (inputs : CalculatorInputs) (annualLoss : ℚ),
      1/20 < inputs.churnRate → inputs.churnRate ≤ 100 →
      Calculations.calculateAnnualRevenueLost inputs ≤ annualLoss →
      ∀ s ∈ Calculations.calculateChurnReductionScenarios inputs annualLoss,
        s.newChurnRate < inputs.churnRate ∧ 0 ≤ s.annualSavings := by
  intro i L hc hc100 hL s hs
  rw [Calculations.calculateChurnReductionScenarios] at hs
  split_ifs at hs
  · simp at hs
  · obtain ⟨r, hr, rfl⟩ := List.mem_map.1 hs
    fin_cases hr <;>
      exact scenarioFor_bounds i L _ hc hc100 (by norm_num) (by norm_num) hL

/-- Witness for the amended claim C8 at the spec's running example
(customers=1000, AOV=100, frequency=2, churnRate=75, annualLoss=150000),
reduction 10%. -/
theorem C8_amended_witness :
    (Calculations.scenarioFor ⟨100, 1000, 2, 75⟩ 150000 10).newChurnRate <
      (75 : ℚ) ∧
    0 ≤ (Calculations.scenarioFor ⟨100, 1000, 2, 75⟩ 150000 10).annualSavings :=
  C8_amended_scenarios ⟨100, 1000, 2, 75⟩ 150000 (by norm_num) (by norm_num)
    (by norm_num [Calculations.calculateAnnualRevenueLost, round2, jsRound])
    (Calculations.scenarioFor ⟨100, 1000, 2, 75⟩ 150000 10)
    (by norm_num [Calculations.calculateChurnReductionScenarios])

/-- Claim C9: for valid inputs, the composition
`calculateMonthlyRevenueLost (calculateAnnualRevenueLost i)` is exactly
the annual loss divided by 12 and rounded to 2 decimals, hence within
half a cent (1/200) of `calculateAnnualRevenueLost i / 12`. -/
theorem C9_monthly_of_annual :
    ∀ inputs : CalculatorInputs,
      0 < inputs.numberOfCustomers → 0 < inputs.churnRate →
      inputs.churnRate ≤ 100 → 0 < inputs.averageOrderValue →
      0 < inputs.purchaseFrequency →
      Calculations.calculateMonthlyRevenueLost
          (Calculations.calculateAnnualRevenueLost inputs) =
        round2 (Calculations.calculateAnnualRevenueLost inputs / 12) ∧
      |Calculations.calculateMonthlyRevenueLost
          (Calculations.calculateAnnualRevenueLost inputs) -
        Calculations.calculateAnnualRevenueLost inputs / 12| ≤ 1/200 := by
  intro i _ _ _ _ _
  have hA : 0 ≤ Calculations.calculateAnnualRevenueLost i :=
    calculateAnnualRevenueLost_nonneg i
  rcases eq_or_lt_of_le hA with hA0 | hApos
  · rw [Calculations.calculateMonthlyRevenueLost, if_pos (le_of_eq hA0.symm),
      ← hA0]
    norm_num [round2, jsRound]
  · rw [Calculations.calculateMonthlyRevenueLost, if_neg (not_le.2 hApos)]
    exact ⟨rfl, abs_round2_sub _⟩

/-- Witness for claim C9 at the spec's running example: the annual loss
150000 gives a monthly loss equal to `round2 (150000 / 12)`. -/
theorem C9_witness :
    Calculations.calculateMonthlyRevenueLost
        (Calculations.calculateAnnualRevenueLost ⟨100, 1000, 2, 75⟩) =
      round2 (Calculations.calculateAnnualRevenueLost ⟨100, 1000, 2, 75⟩ / 12) ∧
    |Calculations.calculateMonthlyRevenueLost
        (Calculations.calculateAnnualRevenueLost ⟨100, 1000, 2, 75⟩) -
      Calculations.calculateAnnualRevenueLost ⟨100, 1000, 2, 75⟩ / 12| ≤
        1/200 :=
  C9_monthly_of_annual ⟨100, 1000, 2, 75⟩ (by norm_num) (by norm_num)
    (by norm_num) (by norm_num) (by norm_num)
